import Mathlib

/- Shallow embedding of the yoomoney payment API client: the transport layer
and response envelope resolver (transport.rs), the domain outcome models
(models.rs), the authorization flow and the paginated history loop (lib.rs).
Machine-level concerns (actual HTTP, serde text parsing) are abstracted: a
reply body is a parsed JSON value, or none when the body text is not valid
JSON; network outcomes are explicit inputs. -/

namespace Yoomoney

/-- JSON values, modelling serde_json bodies. Object keys are assumed unique,
matching well-formed server replies. -/
inductive Json where
  | null : Json
  | bool : Bool → Json
  | num : Int → Json
  | str : String → Json
  | arr : List Json → Json
  | obj : List (String × Json) → Json

/-- Field lookup in a JSON object; any non-object has no fields. -/
def Json.getField : Json → String → Option Json
  | .obj fs, k => (fs.find? (fun p => p.1 == k)).map Prod.snd
  | _, _ => none

/-- Errors of the call pipeline, mirroring the anyhow error values produced in
transport.rs: transport failure, non-success HTTP status for a normal call
(embedding status and body, transport.rs line 75), non-302 status for
redirect capture (line 117), a server-reported error string (line 18), a
serde decode failure, and the defensive expect on the redirect slot
(line 116). -/
inductive CallError where
  | network : CallError
  | unexpectedStatus : Nat → String → CallError
  | unexpectedRedirectStatus : Nat → CallError
  | remote : String → CallError
  | decodeError : CallError
  | missingRedirect : CallError
deriving DecidableEq, Repr

/-- The outer reply envelope, transport.rs lines 8-13: an untagged serde enum
whose variants are tried in declaration order, Error first. -/
inductive Rsp (T : Type) where
  | error : String → Rsp T
  | ok : T → Rsp T
deriving DecidableEq, Repr

/-- Decoding the Error variant of Rsp: serde accepts any JSON object whose
field named error holds a string; extra fields are ignored (serde default). -/
def decodeErrorShape (j : Json) : Option String :=
  match j.getField "error" with
  | some (.str e) => some e
  | _ => none

/-- Untagged decode of Rsp, transport.rs line 9: serde tries the Error shape
first, then falls back to the payload decoder for T. -/
def Rsp.decode {T : Type} (dec : Json → Option T) (j : Json) : Option (Rsp T) :=
  match decodeErrorShape j with
  | some e => some (.error e)
  | none => (dec j).map .ok

/-- Rsp::into_result, transport.rs lines 16-21: the Error variant becomes the
remote error, the OK variant the value. -/
def Rsp.into_result {T : Type} : Rsp T → Except CallError T
  | .error e => .error (.remote e)
  | .ok v => .ok v

/-- CallerWrapper::call body handling, transport.rs line 138: serde_json
parses the body into Rsp T; an unparseable body or one matching neither
envelope shape is a decode error. The input is the parsed body, or none when
the body text is not valid JSON. -/
def resolveBody {T : Type} (dec : Json → Option T) (parsed : Option Json) :
    Except CallError (Rsp T) :=
  match parsed with
  | none => .error .decodeError
  | some j =>
    match Rsp.decode dec j with
    | some r => .ok r
    | none => .error .decodeError

/-- The composition used by every typed endpoint call in lib.rs:
caller.call(...) followed by Rsp::into_result. -/
def resolve {T : Type} (dec : Json → Option T) (parsed : Option Json) :
    Except CallError T :=
  match resolveBody dec parsed with
  | .ok r => r.into_result
  | .error e => .error e

/-- Sample payload decoder used to instantiate generic theorems: an integer
read from a field named value. -/
def decodeValueField (j : Json) : Option Int :=
  match j.getField "value" with
  | some (.num n) => some n
  | _ => none

/-- C1: envelope resolution is an ordered structural attempt. Every body that
decodes as the error shape yields the remote error regardless of the target
decoder; every body decodable as T but not matching the error shape yields the
decoded T; a body matching neither shape, or unparseable text, yields a decode
error. -/
theorem envelope_resolution_ordered {T : Type} (dec : Json → Option T) (j : Json) :
    (∀ X, decodeErrorShape j = some X → resolve dec (some j) = .error (.remote X)) ∧
    (∀ v, decodeErrorShape j = none → dec j = some v → resolve dec (some j) = .ok v) ∧
    (decodeErrorShape j = none → dec j = none → resolve dec (some j) = .error .decodeError) ∧
    (resolve dec none = .error .decodeError) := by
  refine ⟨fun X hX => ?_, fun v hne hv => ?_, fun hne hv => ?_, rfl⟩
  · simp [resolve, resolveBody, Rsp.decode, Rsp.into_result, hX]
  · simp [resolve, resolveBody, Rsp.decode, Rsp.into_result, hne, hv]
  · simp [resolve, resolveBody, Rsp.decode, Rsp.into_result, hne, hv]

/-- Concrete instantiation of C1 at the three body shapes. -/
theorem envelope_resolution_ordered_witness :
    resolve decodeValueField (some (Json.obj [("error", Json.str "boom")]))
        = .error (.remote "boom") ∧
    resolve decodeValueField (some (Json.obj [("value", Json.num 3)])) = .ok 3 ∧
    resolve decodeValueField (some (Json.str "x")) = .error .decodeError :=
  ⟨(envelope_resolution_ordered decodeValueField _).1 "boom" rfl,
   (envelope_resolution_ordered decodeValueField _).2.1 3 rfl rfl,
   (envelope_resolution_ordered decodeValueField _).2.2.1 rfl rfl⟩

/-- Outcome of one HTTP exchange as seen by RemoteCaller::call: either a
transport-level failure (connection, timeout, TLS), or a response with a
status code and a body text. -/
inductive NetOutcome where
  | failure : NetOutcome
  | response : Nat → String → NetOutcome
deriving DecidableEq, Repr

/-- RemoteCaller::call, transport.rs lines 60-79: a transport failure
propagates; reqwest error_for_status_ref flags client-error (400-499) and
server-error (500-599) statuses, producing an error embedding the status and
the body text (line 75); otherwise the body text is returned. -/
def RemoteCaller.call : NetOutcome → Except CallError String
  | .failure => .error .network
  | .response status body =>
    if 400 ≤ status ∧ status ≤ 599 then .error (.unexpectedStatus status body)
    else .ok body

/-- CallerWrapper::call_empty, transport.rs lines 141-153: awaits the
transport call and discards the body without decoding it. -/
def CallerWrapper.call_empty (o : NetOutcome) : Except CallError Unit :=
  match RemoteCaller.call o with
  | .ok _ => .ok ()
  | .error e => .error e

/-- Outcome of one redirect-capture exchange, RemoteCaller::get_redirect: a
transport failure, or a final response status together with the content of
the redirect slot (filled by the redirect-policy hook when the HTTP stack saw
a redirect, transport.rs lines 89-97). -/
inductive RedirectOutcome where
  | failure : RedirectOutcome
  | response : Nat → Option String → RedirectOutcome
deriving DecidableEq, Repr

/-- RemoteCaller::get_redirect status handling, transport.rs lines 111-118:
on status 302 (FOUND) the captured redirect target is returned (the expect on
the slot is the defensive missingRedirect error); any other status is the
unexpected-status protocol error. -/
def RemoteCaller.get_redirect : RedirectOutcome → Except CallError String
  | .failure => .error .network
  | .response status captured =>
    if status = 302 then
      match captured with
      | some u => .ok u
      | none => .error .missingRedirect
    else .error (.unexpectedRedirectStatus status)

/-- An outgoing HTTP request as assembled by RemoteCaller: target URI, form
parameters, and the optional bearer token attached as an authorization
header. -/
structure HttpRequest where
  uri : String
  form : List (String × String)
  bearer : Option String
deriving DecidableEq, Repr

/-- Request assembly in RemoteCaller::call, transport.rs lines 51-58: POST to
addr/endpoint with the form parameters, adding bearer authentication exactly
when the bound credential is present. CallerWrapper::call and
CallerWrapper::call_empty both send through this path (lines 137, 146). -/
def RemoteCaller.buildCallRequest (addr endpoint : String)
    (params : List (String × String)) (bearer : Option String) : HttpRequest :=
  { uri := addr ++ "/" ++ endpoint, form := params, bearer := bearer }

/-- Request assembly in RemoteCaller::get_redirect, transport.rs lines 87-99:
a fresh client is built with the custom redirect policy and posts the form to
addr/endpoint; the bound credential field of the caller is never consulted,
so no authorization header is attached. The bearer argument is the bound
credential, taken to state that it is ignored. -/
def RemoteCaller.buildRedirectRequest (addr endpoint : String)
    (params : List (String × String)) (_bearer : Option String) : HttpRequest :=
  { uri := addr ++ "/" ++ endpoint, form := params, bearer := none }

/-- C5: redirect capture returns exactly the URI captured by the
redirect-interception hook when the final status is 302, and fails with the
unexpected-status error on every other status, returning no URI. -/
theorem redirect_capture_status :
    (∀ u, RemoteCaller.get_redirect (.response 302 (some u)) = .ok u) ∧
    (∀ status captured, status ≠ 302 →
      RemoteCaller.get_redirect (.response status captured)
        = .error (.unexpectedRedirectStatus status)) := by
  constructor
  · intro u; simp [RemoteCaller.get_redirect]
  · intro status captured h; simp [RemoteCaller.get_redirect, h]

/-- Concrete instantiation of C5: a 302 with the example callback target, and
a 200 instead. -/
theorem redirect_capture_status_witness :
    RemoteCaller.get_redirect (.response 302 (some "https://x/callback?code=ABC"))
      = .ok "https://x/callback?code=ABC" ∧
    RemoteCaller.get_redirect (.response 200 (some "https://x/callback?code=ABC"))
      = .error (.unexpectedRedirectStatus 200) :=
  ⟨redirect_capture_status.1 "https://x/callback?code=ABC",
   redirect_capture_status.2 200 (some "https://x/callback?code=ABC") (by decide)⟩

/-- C7 counterexample: with a bound credential present, the request assembled
by get_redirect carries no authorization header, so the claim that all three
caller primitives attach the bearer credential fails for getRedirect. -/
theorem bearer_attachment_counterexample :
    (RemoteCaller.buildRedirectRequest "https://money.yandex.ru" "oauth/authorize"
      [] (some "tok")).bearer = none ∧
    (RemoteCaller.buildRedirectRequest "https://money.yandex.ru" "oauth/authorize"
      [] (some "tok")).bearer ≠ some "tok" := by
  constructor
  · rfl
  · intro h; simp [RemoteCaller.buildRedirectRequest] at h

/-- C7 amended: call and callEmpty (both sending through RemoteCaller::call)
attach the bound bearer credential exactly as bound — present when present,
absent when absent — while getRedirect never attaches any credential. -/
theorem bearer_attachment_amended (addr endpoint : String)
    (params : List (String × String)) (bearer : Option String) :
    (RemoteCaller.buildCallRequest addr endpoint params bearer).bearer = bearer ∧
    (RemoteCaller.buildRedirectRequest addr endpoint params bearer).bearer = none :=
  ⟨rfl, rfl⟩

/-- C9: call_empty succeeds with the unit value on every success-status
response regardless of body content, fails exactly when the transport call
fails, and the transport failures are exactly the unexpected-status and
network errors. -/
theorem call_empty_discards_body :
    (∀ status body, 200 ≤ status → status ≤ 299 →
      CallerWrapper.call_empty (.response status body) = .ok ()) ∧
    (∀ o e, CallerWrapper.call_empty o = .error e ↔ RemoteCaller.call o = .error e) ∧
    (∀ o e, CallerWrapper.call_empty o = .error e →
      e = .network ∨ ∃ status body, e = .unexpectedStatus status body) := by
  refine ⟨fun status body h1 h2 => ?_, fun o e => ?_, fun o e h => ?_⟩
  · have hs : ¬ (400 ≤ status ∧ status ≤ 599) := by omega
    simp [CallerWrapper.call_empty, RemoteCaller.call, hs]
  · cases o with
    | failure => simp [CallerWrapper.call_empty, RemoteCaller.call]
    | response status body =>
      by_cases hs : 400 ≤ status ∧ status ≤ 599 <;>
        simp [CallerWrapper.call_empty, RemoteCaller.call, hs]
  · cases o with
    | failure =>
      left
      have h2 : CallError.network = e := by injection h
      exact h2.symm
    | response status body =>
      by_cases hs : 400 ≤ status ∧ status ≤ 599
      · right
        refine ⟨status, body, ?_⟩
        simpa [CallerWrapper.call_empty, RemoteCaller.call, hs] using h.symm
      · simp [CallerWrapper.call_empty, RemoteCaller.call, hs] at h

/-- Concrete instantiation of C9: a 200 response with a nonempty JSON body
succeeds with unit; a 500 response fails with the status error; a transport
failure fails with the network error. -/
theorem call_empty_discards_body_witness :
    CallerWrapper.call_empty (.response 200 "returned body ignored") = .ok () ∧
    (CallerWrapper.call_empty (.response 500 "oops") = .error (.unexpectedStatus 500 "oops") ↔
      RemoteCaller.call (.response 500 "oops") = .error (.unexpectedStatus 500 "oops")) ∧
    (CallerWrapper.call_empty .failure = .error .network →
      CallError.network = .network ∨
        ∃ status body, CallError.network = .unexpectedStatus status body) :=
  ⟨call_empty_discards_body.1 200 "returned body ignored" (by decide) (by decide),
   call_empty_discards_body.2.1 (.response 500 "oops") (.unexpectedStatus 500 "oops"),
   call_empty_discards_body.2.2 .failure .network⟩

/-- Opaque decimal scalar: the spec treats decimal values as opaque
serializable scalars, so only the wire text is kept. -/
structure BigDecimal where
  text : String
deriving DecidableEq, Repr

/-- WalletSource, models.rs lines 224-227. -/
structure WalletSource where
  allowed : Bool
deriving DecidableEq, Repr

/-- CardType, models.rs lines 52-58. -/
inductive CardType where
  | visa : CardType
  | masterCard : CardType
  | americanExpress : CardType
  | jcb : CardType
deriving DecidableEq, Repr

/-- LinkedCard, models.rs lines 60-66. -/
structure LinkedCard where
  pan_fragment : Option String
  card_type : Option CardType
deriving DecidableEq, Repr

/-- CardSource, models.rs lines 229-234. -/
structure CardSource where
  id : String
  data : LinkedCard
deriving DecidableEq, Repr

/-- CardsSource, models.rs lines 236-241. -/
structure CardsSource where
  allowed : Bool
  csc_required : Option Bool
  items : Option (List CardSource)
deriving DecidableEq, Repr

/-- MoneySources, models.rs lines 243-247. -/
structure MoneySources where
  wallet : WalletSource
  cards : CardsSource
deriving DecidableEq, Repr

/-- RequestPaymentSuccessData, models.rs lines 249-254. -/
structure RequestPaymentSuccessData where
  balance : BigDecimal
  request_id : String
  money_source : MoneySources
deriving DecidableEq, Repr

/-- RequestPaymentResponse, models.rs lines 256-262: a serde enum internally
tagged by the status field in snake_case. -/
inductive RequestPaymentResponse where
  | success : RequestPaymentSuccessData → RequestPaymentResponse
  | holdForPickup : RequestPaymentSuccessData → RequestPaymentResponse
  | refused : String → RequestPaymentResponse
deriving DecidableEq, Repr

/-- RequestPaymentResponse::into_result, models.rs lines 264-273. -/
def RequestPaymentResponse.into_result :
    RequestPaymentResponse → Except String (Bool × RequestPaymentSuccessData)
  | .success d => .ok (false, d)
  | .holdForPickup d => .ok (true, d)
  | .refused e => .error e

/-- ProcessPaymentSuccessData, models.rs lines 291-305. Value fields are
arbitrary JSON. -/
structure ProcessPaymentSuccessData where
  payment_id : String
  balance : BigDecimal
  invoice_id : String
  payer : String
  payee : String
  credit_amount : BigDecimal
  hold_for_pickup_link : String
  acs_uri : Option String
  acs_params : Option Json
  digital_goods : Json

/-- ProcessPaymentResponse, models.rs lines 307-316: a serde enum internally
tagged by the status field in snake_case. The retry delay is a u64, modelled
as Nat. -/
inductive ProcessPaymentResponse where
  | success : ProcessPaymentSuccessData → ProcessPaymentResponse
  | refused : String → ProcessPaymentResponse
  | inProgress : Nat → ProcessPaymentResponse
  | extAuthRequired : ProcessPaymentResponse
  | accountBlocked : String → ProcessPaymentResponse

/-- ProcessPaymentError, models.rs lines 318-324. -/
inductive ProcessPaymentError where
  | refused : String → ProcessPaymentError
  | inProgress : Nat → ProcessPaymentError
  | extAuthRequired : ProcessPaymentError
  | accountBlocked : String → ProcessPaymentError
deriving DecidableEq, Repr

/-- ProcessPaymentResponse::into_result, models.rs lines 326-341. -/
def ProcessPaymentResponse.into_result :
    ProcessPaymentResponse → Except ProcessPaymentError ProcessPaymentSuccessData
  | .success d => .ok d
  | .refused e => .error (.refused e)
  | .inProgress n => .error (.inProgress n)
  | .extAuthRequired => .error .extAuthRequired
  | .accountBlocked u => .error (.accountBlocked u)

/-- C2: the two outcome resolvers map the success and hold-for-pickup tags to
success values flagged false and true with the payload preserved, and map
every other status tag 1:1 onto its outcome error variant with all fields
preserved. -/
theorem outcome_resolution_variants :
    (∀ d, RequestPaymentResponse.into_result (.success d) = .ok (false, d)) ∧
    (∀ d, RequestPaymentResponse.into_result (.holdForPickup d) = .ok (true, d)) ∧
    (∀ e, RequestPaymentResponse.into_result (.refused e) = .error e) ∧
    (∀ d, ProcessPaymentResponse.into_result (.success d) = .ok d) ∧
    (∀ e, ProcessPaymentResponse.into_result (.refused e) = .error (.refused e)) ∧
    (∀ n, ProcessPaymentResponse.into_result (.inProgress n) = .error (.inProgress n)) ∧
    (ProcessPaymentResponse.into_result .extAuthRequired = .error .extAuthRequired) ∧
    (∀ u, ProcessPaymentResponse.into_result (.accountBlocked u)
      = .error (.accountBlocked u)) :=
  ⟨fun _ => rfl, fun _ => rfl, fun _ => rfl, fun _ => rfl,
   fun _ => rfl, fun _ => rfl, rfl, fun _ => rfl⟩

/-- String decode. -/
def decodeString : Json → Option String
  | .str s => some s
  | _ => none

/-- Decimal decode, as the opaque scalar read from a JSON number. -/
def decodeBigDecimal : Json → Option BigDecimal
  | .num n => some ⟨toString n⟩
  | _ => none

/-- Decode of a u64 field: a non-negative JSON integer. -/
def decodeU64 : Json → Option Nat
  | .num (Int.ofNat n) => some n
  | _ => none

/-- Decode of a serde field of Option type with serde(default): an absent
field or JSON null is none; a present value must decode. -/
def decodeOptionalField {α : Type} (j : Json) (k : String) (dec : Json → Option α) :
    Option (Option α) :=
  match j.getField k with
  | none => some none
  | some .null => some none
  | some v => (dec v).map some

/-- Decode of a required serde field. -/
def decodeRequiredField {α : Type} (j : Json) (k : String) (dec : Json → Option α) :
    Option α :=
  match j.getField k with
  | some v => dec v
  | none => none

/-- serde decode of ProcessPaymentSuccessData from the tagged object,
models.rs lines 291-305; unknown fields are ignored, acs_uri and acs_params
carry serde(default). -/
def decodeProcessPaymentSuccessData (j : Json) : Option ProcessPaymentSuccessData := do
  let payment_id ← decodeRequiredField j "payment_id" decodeString
  let balance ← decodeRequiredField j "balance" decodeBigDecimal
  let invoice_id ← decodeRequiredField j "invoice_id" decodeString
  let payer ← decodeRequiredField j "payer" decodeString
  let payee ← decodeRequiredField j "payee" decodeString
  let credit_amount ← decodeRequiredField j "credit_amount" decodeBigDecimal
  let hold_for_pickup_link ← decodeRequiredField j "hold_for_pickup_link" decodeString
  let acs_uri ← decodeOptionalField j "acs_uri" decodeString
  let acs_params ← decodeOptionalField j "acs_params" some
  let digital_goods ← j.getField "digital_goods"
  pure { payment_id := payment_id, balance := balance, invoice_id := invoice_id,
         payer := payer, payee := payee, credit_amount := credit_amount,
         hold_for_pickup_link := hold_for_pickup_link, acs_uri := acs_uri,
         acs_params := acs_params, digital_goods := digital_goods }

/-- serde decode of the internally tagged ProcessPaymentResponse, models.rs
lines 307-316: dispatch on the snake_case status tag, then decode the variant
fields from the same object. -/
def decodeProcessPaymentResponse (j : Json) : Option ProcessPaymentResponse :=
  match j.getField "status" with
  | some (.str "success") => (decodeProcessPaymentSuccessData j).map .success
  | some (.str "refused") =>
    (decodeRequiredField j "error" decodeString).map .refused
  | some (.str "in_progress") =>
    (decodeRequiredField j "next_retry" decodeU64).map .inProgress
  | some (.str "ext_auth_required") => some .extAuthRequired
  | some (.str "account_blocked") =>
    (decodeRequiredField j "account_unblock_uri" decodeString).map .accountBlocked
  | _ => none

/-- Full process-payment reply pipeline: Client::process_payment, lib.rs
lines 388-392 (caller.call then Rsp::into_result) followed by the caller
applying ProcessPaymentResponse::into_result to branch on the outcome. -/
def processPaymentOutcome (parsed : Option Json) :
    Except CallError (Except ProcessPaymentError ProcessPaymentSuccessData) :=
  match resolve decodeProcessPaymentResponse parsed with
  | .ok r => .ok r.into_result
  | .error e => .error e

/-- C8 counterexample: a refused reply carries an error field on the wire, so
the untagged outer envelope classifies it as its Error variant first and the
caller receives the generic remote error, not the typed refused outcome. -/
theorem outcome_shape_counterexample :
    processPaymentOutcome (some (Json.obj
        [("status", Json.str "refused"), ("error", Json.str "denied")]))
      = .error (.remote "denied") ∧
    processPaymentOutcome (some (Json.obj
        [("status", Json.str "refused"), ("error", Json.str "denied")]))
      ≠ .ok (.error (.refused "denied")) := by
  constructor
  · rfl
  · intro h
    simp [processPaymentOutcome, resolve, resolveBody, Rsp.decode, decodeErrorShape,
      Json.getField, Rsp.into_result] at h

/-- C8 amended: the non-success outcomes whose wire payload carries no error
field — in-progress, external-auth-required, account-blocked — are surfaced
to the caller as their typed outcome error variants, distinct from any remote
envelope error; a refused reply, whose payload carries an error field, is
instead captured by the untagged outer envelope as the remote error with the
same message. -/
theorem outcome_shape_amended :
    (∀ n, processPaymentOutcome (some (Json.obj
        [("status", Json.str "in_progress"), ("next_retry", Json.num (Int.ofNat n))]))
      = .ok (.error (.inProgress n))) ∧
    (processPaymentOutcome (some (Json.obj [("status", Json.str "ext_auth_required")]))
      = .ok (.error .extAuthRequired)) ∧
    (∀ u, processPaymentOutcome (some (Json.obj
        [("status", Json.str "account_blocked"), ("account_unblock_uri", Json.str u)]))
      = .ok (.error (.accountBlocked u))) ∧
    (∀ parsed v m, processPaymentOutcome parsed = .ok v →
      processPaymentOutcome parsed ≠ .error (.remote m)) ∧
    (∀ msg, processPaymentOutcome (some (Json.obj
        [("status", Json.str "refused"), ("error", Json.str msg)]))
      = .error (.remote msg)) := by
  refine ⟨fun n => rfl, rfl, fun u => rfl, fun parsed v m hok hbad => ?_, fun msg => ?_⟩
  · rw [hok] at hbad
    exact Except.noConfusion hbad
  · simp [processPaymentOutcome, resolve, resolveBody, Rsp.decode, decodeErrorShape,
      Json.getField, Rsp.into_result]

/-- Concrete instantiation of the implication conjunct of the amended C8. -/
theorem outcome_shape_amended_witness :
    processPaymentOutcome (some (Json.obj [("status", Json.str "ext_auth_required")]))
      ≠ .error (.remote "x") :=
  outcome_shape_amended.2.2.2.1
    (some (Json.obj [("status", Json.str "ext_auth_required")]))
    (.error .extAuthRequired) "x" outcome_shape_amended.2.1

/-- One page of operation history, models.rs lines 86-90: the optional next
cursor (a string-encoded u64 on the wire, modelled as Nat) and the records of
the page in server order. The record type is a parameter; the pagination
logic never inspects records. -/
structure OperationHistoryResponse (α : Type) where
  next_record : Option Nat
  operations : List α
deriving DecidableEq, Repr

/-- Final shape of one run of the history stream: the cursors of the calls
issued in order, the records yielded in order, and how the stream ended —
normal termination, a terminal error item, or the fuel bound reached before
the loop terminated. -/
inductive StreamOutcome (α : Type) where
  | done : List Nat → List α → StreamOutcome α
  | failed : List Nat → List α → CallError → StreamOutcome α
  | fuelExhausted : List Nat → List α → StreamOutcome α
deriving DecidableEq, Repr

/-- The try_stream loop of Client::operation_history, lib.rs lines 246-273:
each iteration sets start-record to the current cursor and calls the history
endpoint (the server argument abstracts caller.call composed with
Rsp::into_result at a given cursor; the fixed filter parameters are constant
across iterations and elided). An error is the terminal item; an empty record
list terminates before yielding; otherwise every record is yielded in order
and the loop continues exactly when a next cursor is present. Fuel bounds the
number of iterations so the definition is total; a run that terminates never
consumes all fuel in these theorems. -/
def operation_history {α : Type}
    (server : Nat → Except CallError (OperationHistoryResponse α)) :
    Nat → Nat → StreamOutcome α
  | 0, _ => .fuelExhausted [] []
  | fuel+1, cursor =>
    match server cursor with
    | .error e => .failed [cursor] [] e
    | .ok page =>
      if page.operations.isEmpty then .done [cursor] []
      else
        match page.next_record with
        | some v =>
          match operation_history server fuel v with
          | .done cs ys => .done (cursor :: cs) (page.operations ++ ys)
          | .failed cs ys e => .failed (cursor :: cs) (page.operations ++ ys) e
          | .fuelExhausted cs ys => .fuelExhausted (cursor :: cs) (page.operations ++ ys)
        | none => .done [cursor] page.operations

/-- Server with the two pages of the C3 scenario: cursor 0 answers records
a, b with next cursor 5; cursor 5 answers record c with no next cursor; any
other cursor would fail, showing such a call is never made. -/
def twoPageServer {α : Type} (a b c : α) :
    Nat → Except CallError (OperationHistoryResponse α)
  | 0 => .ok ⟨some 5, [a, b]⟩
  | 5 => .ok ⟨none, [c]⟩
  | _ => .error .network

/-- Server with the single page of the C4 scenario: cursor 0 answers an empty
record list while still carrying next cursor 7; any other cursor would
fail. -/
def emptyPageServer (α : Type) : Nat → Except CallError (OperationHistoryResponse α)
  | 0 => .ok ⟨some 7, []⟩
  | _ => .error .network

/-- C3: over the pages records a, b with next 5 then record c with no next,
the stream started at cursor 0 yields exactly a, b, c in order and
terminates, issuing exactly the two calls at cursors 0 and 5 — for every
fuel bound of at least two iterations. -/
theorem history_stream_two_pages {α : Type} (a b c : α) (f : Nat) :
    operation_history (twoPageServer a b c) (f + 2) 0 = .done [0, 5] [a, b, c] :=
  rfl

/-- C4: whenever the page returned for the current cursor has an empty record
list, the stream yields nothing further and terminates after that single
call, even when the page carries a next cursor — that cursor is never
followed. -/
theorem history_stream_empty_page {α : Type}
    (server : Nat → Except CallError (OperationHistoryResponse α))
    (cursor f : Nat) (page : OperationHistoryResponse α)
    (hs : server cursor = .ok page) (hemp : page.operations = []) :
    operation_history server (f + 1) cursor = .done [cursor] [] := by
  simp [operation_history, hs, hemp]

/-- Concrete instantiation of C4: a first page with empty records and next
cursor 7 yields nothing and makes no second call. -/
theorem history_stream_empty_page_witness :
    operation_history (emptyPageServer Nat) 1 0 = .done [0] [] :=
  history_stream_empty_page (emptyPageServer Nat) 0 0 ⟨some 7, []⟩ rfl rfl

/-- TokenExchangeData, models.rs lines 22-25. -/
structure TokenExchangeData where
  access_token : String
deriving DecidableEq, Repr

/-- serde decode of TokenExchangeData: a required access_token string
field. -/
def decodeTokenExchangeData (j : Json) : Option TokenExchangeData :=
  (decodeRequiredField j "access_token" decodeString).map TokenExchangeData.mk

/-- UnauthorizedClient::authorize, lib.rs lines 160-203. Network interactions
are inputs: redirectResult is the outcome of get_redirect on oauth/authorize
(its parameter map contains a fresh random instance identifier and is not
needed by the claims); callback is the injected authorize_callback; exchange
maps the form parameters of the oauth/token call to its transport outcome,
given as the parsed reply body. The returned flag records whether the
token-exchange endpoint was called. -/
def authorize (client_id redirect_uri : String)
    (redirectResult : Except CallError String)
    (callback : String → Except CallError String)
    (exchange : List (String × String) → Except CallError (Option Json)) :
    Except CallError String × Bool :=
  match redirectResult with
  | .error e => (.error e, false)
  | .ok addr =>
    match callback addr with
    | .error e => (.error e, false)
    | .ok code =>
      let params := [("code", code), ("client_id", client_id),
        ("grant_type", "authorization_code"), ("redirect_uri", redirect_uri)]
      match exchange params with
      | .error e => (.error e, true)
      | .ok parsed =>
        match resolve decodeTokenExchangeData parsed with
        | .ok tok => (.ok tok.access_token, true)
        | .error e => (.error e, true)

/-- C6: when the redirect step yields an address, a callback returning a code
plus a token-exchange reply carrying access_token T1 make the flow yield
exactly T1; and with a failing callback the flow fails with that failure and
the token-exchange endpoint is never called, so no partial credential is
produced. -/
theorem authorize_flow (client_id redirect_uri addr code T1 : String)
    (exchange : List (String × String) → Except CallError (Option Json))
    (hx : exchange [("code", code), ("client_id", client_id),
        ("grant_type", "authorization_code"), ("redirect_uri", redirect_uri)]
      = .ok (some (Json.obj [("access_token", Json.str T1)]))) :
    authorize client_id redirect_uri (.ok addr) (fun _ => .ok code) exchange
      = (.ok T1, true) ∧
    ∀ e exchange2, authorize client_id redirect_uri (.ok addr)
        (fun _ => .error e) exchange2 = (.error e, false) := by
  constructor
  · simp [authorize, hx, resolve, resolveBody, Rsp.decode, decodeErrorShape,
      Json.getField, decodeTokenExchangeData, decodeRequiredField, decodeString,
      Rsp.into_result]
  · intro e exchange2
    rfl

/-- Concrete instantiation of C6 with the spec scenario: callback code ABC
and token-exchange reply access_token T1. -/
theorem authorize_flow_witness :
    authorize "cid" "https://x/callback" (.ok "https://auth") (fun _ => .ok "ABC")
        (fun _ => .ok (some (Json.obj [("access_token", Json.str "T1")])))
      = (.ok "T1", true) ∧
    authorize "cid" "https://x/callback" (.ok "https://auth")
        (fun _ => .error .network)
        (fun _ => .ok (some (Json.obj [("access_token", Json.str "T1")])))
      = (.error .network, false) :=
  ⟨(authorize_flow "cid" "https://x/callback" "https://auth" "ABC" "T1" _ rfl).1,
   (authorize_flow "cid" "https://x/callback" "https://auth" "ABC" "T1"
      (fun _ => .ok (some (Json.obj [("access_token", Json.str "T1")]))) rfl).2
     .network _⟩

/-- Lookup in a parameter map, modelled as an association list with unique
keys (HashMap of the source, order irrelevant). -/
def mapLookup (m : List (String × String)) (k : String) : Option String :=
  (m.find? (fun p => p.1 == k)).map Prod.snd

/-- HashMap::insert semantics on the parameter map: the key now maps to the
new value; every other key is untouched. -/
def mapInsert (m : List (String × String)) (k v : String) : List (String × String) :=
  (k, v) :: m.filter (fun p => p.1 != k)

/-- One outgoing endpoint call: the endpoint path and the parameter map. -/
structure EndpointCall where
  endpoint : String
  params : List (String × String)
deriving DecidableEq, Repr

/-- PaymentRequest, lib.rs lines 71-74, reduced to its parameter map (the
bound caller carries no data the claims depend on). -/
structure PaymentRequest where
  params : List (String × String)
deriving DecidableEq, Repr

/-- PaymentRequest::send, lib.rs lines 76-89: posts the parameter map to the
api/request-payment endpoint. -/
def PaymentRequest.send (r : PaymentRequest) : EndpointCall :=
  ⟨"api/request-payment", r.params⟩

/-- TestPaymentRequest, lib.rs lines 91-99: a wrapped PaymentRequest. -/
structure TestPaymentRequest where
  inner : PaymentRequest
deriving DecidableEq, Repr

/-- TestPaymentRequest::send, lib.rs lines 101-110: inserts the pair
test_payment, true into the wrapped parameters and delegates to
PaymentRequest::send. -/
def TestPaymentRequest.send (r : TestPaymentRequest) : EndpointCall :=
  PaymentRequest.send ⟨mapInsert r.inner.params "test_payment" "true"⟩

/-- Filtering out the entries at one key does not change lookup at any other
key. -/
theorem find_filter_out_other (m : List (String × String)) (k q : String)
    (h : q ≠ k) :
    ((m.filter (fun p => p.1 != k)).find? (fun p => p.1 == q))
      = m.find? (fun p => p.1 == q) := by
  induction m with
  | nil => rfl
  | cons p t ih =>
    have hkq : ¬ (k = q) := fun hh => h hh.symm
    by_cases hpq : p.1 = q
    · have hpk : p.1 ≠ k := by rw [hpq]; exact h
      simp [List.filter_cons, List.find?_cons, hpq, hpk, h, hkq]
    · by_cases hpk : p.1 = k
      · simp [List.filter_cons, List.find?_cons, hpq, hpk, hkq, ih]
      · simp [List.filter_cons, List.find?_cons, hpq, hpk, ih]

/-- C10: sending the test version of a payment request issues the call to the
same payment-request endpoint, with the wrapped parameter map extended by the
entry mapping test_payment to true; lookup at every other key is
unchanged. -/
theorem test_payment_params (r : PaymentRequest) :
    (TestPaymentRequest.send ⟨r⟩).endpoint = (PaymentRequest.send r).endpoint ∧
    mapLookup (TestPaymentRequest.send ⟨r⟩).params "test_payment" = some "true" ∧
    ∀ k, k ≠ "test_payment" →
      mapLookup (TestPaymentRequest.send ⟨r⟩).params k = mapLookup r.params k := by
  refine ⟨rfl, rfl, fun k hk => ?_⟩
  have hk2 : ¬ ("test_payment" = k) := fun hh => hk hh.symm
  simp [TestPaymentRequest.send, PaymentRequest.send, mapInsert, mapLookup,
    List.find?_cons, hk2, find_filter_out_other r.params "test_payment" k hk]

/-- Concrete instantiation of C10 at a transfer parameter map. -/
theorem test_payment_params_witness :
    (TestPaymentRequest.send ⟨⟨[("pattern_id", "p2p"), ("to", "4100")]⟩⟩).endpoint
      = (PaymentRequest.send ⟨[("pattern_id", "p2p"), ("to", "4100")]⟩).endpoint ∧
    mapLookup (TestPaymentRequest.send
        ⟨⟨[("pattern_id", "p2p"), ("to", "4100")]⟩⟩).params "test_payment"
      = some "true" ∧
    mapLookup (TestPaymentRequest.send
        ⟨⟨[("pattern_id", "p2p"), ("to", "4100")]⟩⟩).params "pattern_id"
      = mapLookup [("pattern_id", "p2p"), ("to", "4100")] "pattern_id" :=
  ⟨(test_payment_params ⟨[("pattern_id", "p2p"), ("to", "4100")]⟩).1,
   (test_payment_params ⟨[("pattern_id", "p2p"), ("to", "4100")]⟩).2.1,
   (test_payment_params ⟨[("pattern_id", "p2p"), ("to", "4100")]⟩).2.2
     "pattern_id" (by decide)⟩

end Yoomoney
